import Mathlib

/-!
Shallow embedding of the Tabasaran–Russian translator frontend:
the `useTranslator` composable (translate / toggleDirection / clear),
the `TranslatorResult` component (render branches, word classes,
selected-word modal state, unknown-word footer counter), the
`WordCard` component (confidence bar), the `TranslatorInput`
component (translate-button disabling) and the `api/translator`
HTTP client (request body shape and defaults).

Confidence values are modelled as rationals; JS string falsiness
(`""` is falsy) is modelled explicitly where the code relies on it.
-/

/-- Embeds `TranslationDirection = 'tab-rus' | 'rus-tab'` from `types.ts`. -/
inductive Direction where
  | tabRus
  | rusTab
  deriving DecidableEq, Repr

/-- Embeds the `WordTranslation` interface from `types.ts`. -/
structure WordTranslation where
  word : String
  translations : List String
  part_of_speech : Option String
  confidence : ℚ
  is_unknown : Bool
  deriving DecidableEq, Repr

/-- Embeds the `TranslateResponse` interface from `types.ts`. -/
structure TranslateResponse where
  original_text : String
  translated_text : String
  words : List WordTranslation
  direction : Direction
  llm_used : Bool
  deriving DecidableEq, Repr

/-- The reactive state of the `useTranslator` composable: the refs
`inputText`, `direction`, `isLoading`, `error`, `result`, `useLlm`. -/
structure TranslatorState where
  inputText : String
  direction : Direction
  isLoading : Bool
  error : Option String
  result : Option TranslateResponse
  useLlm : Bool
  deriving DecidableEq, Repr

/-- Outcome of the awaited `api.translate` call inside `translate()`:
either a response, or a thrown error carrying the optional
`e.response?.data?.detail` and `e.message` fields. -/
inductive ApiOutcome where
  | success (r : TranslateResponse)
  | failure (detail : Option String) (message : Option String)
  deriving DecidableEq, Repr

/-- JS `a || b` on strings where `a` may be `undefined`: an absent or
empty string is falsy and falls through to `b`. -/
def jsOrString (a : Option String) (b : String) : String :=
  match a with
  | some s => if s = "" then b else s
  | none => b

/-- JS `String.prototype.trim()`: drops leading and trailing
whitespace characters. -/
def jsTrim (s : String) : String :=
  let chars := s.data.dropWhile (fun c => c.isWhitespace)
  { data := (chars.reverse.dropWhile (fun c => c.isWhitespace)).reverse }

/-- JS truthiness of a nullable string (`v-else-if="error"` and
similar guards): `null` and `""` are falsy. -/
def jsTruthyStr : Option String → Bool
  | none => false
  | some s => s != ""

namespace UseTranslator

/-- The initial ref values of `useTranslator()`. -/
def initialState : TranslatorState :=
  { inputText := ""
    direction := Direction.tabRus
    isLoading := false
    error := none
    result := none
    useLlm := true }

/-- The error message set by `translate()` on blank input. -/
def blankInputError : String := "Введите текст для перевода"

/-- The message stored in `error` by the catch branch of `translate()`:
`e.response?.data?.detail || e.message || 'Ошибка перевода'`. -/
def failureErrorMessage (detail message : Option String) : String :=
  jsOrString detail (jsOrString message "Ошибка перевода")

/-- Embeds `useTranslator.translate()`. The returned `Bool` records
whether the API call was issued. On blank (whitespace-only) input the
function sets `error` and returns before touching `isLoading` or
`result`; otherwise the try/catch/finally runs: success stores the
response in `result` (with `error` already reset to null), failure
stores a message in `error` and nulls `result`; `finally` clears
`isLoading`. -/
def translate (s : TranslatorState) (api : ApiOutcome) : TranslatorState × Bool :=
  if jsTrim s.inputText = "" then
    ({ s with error := some blankInputError }, false)
  else
    match api with
    | ApiOutcome.success r =>
        ({ s with isLoading := false, error := none, result := some r }, true)
    | ApiOutcome.failure detail message =>
        ({ s with
            isLoading := false
            error := some (failureErrorMessage detail message)
            result := none }, true)

/-- Embeds `useTranslator.toggleDirection()`: flips the direction and,
when a result is present, moves its translated text into the input and
clears the result. -/
def toggleDirection (s : TranslatorState) : TranslatorState :=
  let d := if s.direction = Direction.tabRus then Direction.rusTab else Direction.tabRus
  match s.result with
  | some r => { s with direction := d, inputText := r.translated_text, result := none }
  | none => { s with direction := d }

/-- Embeds `useTranslator.clear()`. -/
def clear (s : TranslatorState) : TranslatorState :=
  { s with inputText := "", result := none, error := none }

/-- Embeds the `unknownWords` computed:
`result.value?.words.filter(w => w.is_unknown) ?? []`. -/
def unknownWords (result : Option TranslateResponse) : List WordTranslation :=
  match result with
  | some r => r.words.filter (fun w => w.is_unknown)
  | none => []

end UseTranslator

namespace TranslatorResult

/-- Embeds `selectWord` of `TranslatorResult.vue`: only a known word
replaces the selection. -/
def selectWord (selectedWord : Option WordTranslation) (w : WordTranslation) :
    Option WordTranslation :=
  if w.is_unknown then selectedWord else some w

/-- Embeds `closeWordCard` of `TranslatorResult.vue`. -/
def closeWordCard : Option WordTranslation := none

/-- The modal-state invariant: the selected word is either null or a
known (not unknown) word. -/
def selectedWordOk : Option WordTranslation → Bool
  | none => true
  | some w => !w.is_unknown

/-- Embeds `getWordClass` of `TranslatorResult.vue`. -/
def getWordClass (w : WordTranslation) : String :=
  if w.is_unknown then "text-red-600 bg-red-50 cursor-help"
  else if w.confidence < 8/10 then
    "text-yellow-700 bg-yellow-50 cursor-pointer hover:bg-yellow-100"
  else "cursor-pointer hover:bg-primary-50"

/-- The four mutually exclusive `v-if`/`v-else-if`/`v-else` branches of
the `TranslatorResult.vue` template body. -/
inductive RenderBranch where
  | loading
  | errorBox
  | empty
  | resultView
  deriving DecidableEq, Repr

/-- Embeds the template branch selection of `TranslatorResult.vue`:
`v-if="isLoading"`, `v-else-if="error"`, `v-else-if="!result"`,
`v-else` (the result view). -/
def renderBranch (isLoading : Bool) (error : Option String)
    (result : Option TranslateResponse) : RenderBranch :=
  if isLoading then RenderBranch.loading
  else if jsTruthyStr error then RenderBranch.errorBox
  else if result.isNone then RenderBranch.empty
  else RenderBranch.resultView

/-- Embeds the footer guard `v-if="result.words.some(w => w.is_unknown)"`
around the not-found counter. -/
def showUnknownCounter (r : TranslateResponse) : Bool :=
  r.words.any (fun w => w.is_unknown)

/-- Embeds the displayed number
`result.words.filter(w => w.is_unknown).length`. -/
def unknownCountShown (r : TranslateResponse) : Nat :=
  (r.words.filter (fun w => w.is_unknown)).length

/-- Embeds the footer guard `v-if="result"`. -/
def footerShown (result : Option TranslateResponse) : Bool :=
  result.isSome

end TranslatorResult

namespace WordCard

/-- Embeds the confidence-bar class ternary of `WordCard.vue`:
`word.confidence >= 0.8 ? 'bg-green-500' : word.confidence >= 0.5 ?
'bg-yellow-500' : 'bg-red-500'`. -/
def barColor (w : WordTranslation) : String :=
  if w.confidence ≥ 8/10 then "bg-green-500"
  else if w.confidence ≥ 5/10 then "bg-yellow-500"
  else "bg-red-500"

/-- Embeds the bar width binding of `WordCard.vue`:
`width: word.confidence * 100 %`. -/
def barWidthPercent (w : WordTranslation) : ℚ :=
  w.confidence * 100

end WordCard

namespace TranslatorInput

/-- Embeds the translate-button binding of `TranslatorInput.vue`:
`:disabled="isLoading || !modelValue.trim()"` (an all-whitespace value
trims to the falsy empty string). -/
def translateDisabled (isLoading : Bool) (modelValue : String) : Bool :=
  isLoading || jsTrim modelValue == ""

end TranslatorInput

namespace AppView

/-- Embeds the badge guard `v-if="result?.llm_used"` of `App.vue`
(optional chaining on a null result yields a falsy value). -/
def showAiBadge : Option TranslateResponse → Bool
  | some r => r.llm_used
  | none => false

end AppView

namespace ApiClient

/-- Embeds the POST body object literal of `api/translator.ts`
`translate`: `{ text, direction, use_llm: useLlm }` — this structure
has exactly these three fields. -/
structure TranslateRequestBody where
  text : String
  direction : Direction
  use_llm : Bool
  deriving DecidableEq, Repr

/-- Embeds the body construction in `translate(text, direction, useLlm)`
of `api/translator.ts`. -/
def translateBody (text : String) (direction : Direction) (useLlm : Bool) :
    TranslateRequestBody :=
  { text := text, direction := direction, use_llm := useLlm }

/-- The default of the `direction` parameter of `translate` in
`api/translator.ts` (`direction: TranslationDirection = 'tab-rus'`). -/
def defaultDirection : Direction := Direction.tabRus

/-- The default of the `useLlm` parameter of `translate` in
`api/translator.ts` (`useLlm: boolean = true`). -/
def defaultUseLlm : Bool := true

end ApiClient

/-! Concrete example values used by witnesses and counterexamples. -/

/-- A known word in the low band (confidence below 0.5), for C2. -/
def lowKnownWord : WordTranslation :=
  { word := "аьхю", translations := ["большой"], part_of_speech := none
    confidence := 3/10, is_unknown := false }

/-- A known word in the medium band (confidence in [0.5, 0.8)), for C2. -/
def midKnownWord : WordTranslation :=
  { word := "гаф", translations := ["слово"], part_of_speech := none
    confidence := 6/10, is_unknown := false }

/-- An unknown word, for C2. -/
def unknownWordC2 : WordTranslation :=
  { word := "xyzzy", translations := [], part_of_speech := none
    confidence := 0, is_unknown := true }

/-- An unknown word, for C9. -/
def unknownWordC9 : WordTranslation :=
  { word := "qqq", translations := [], part_of_speech := none
    confidence := 0, is_unknown := true }

/-- A known word, for C9. -/
def knownWordC9 : WordTranslation :=
  { word := "чвас", translations := ["здесь"], part_of_speech := some "нареч"
    confidence := 1, is_unknown := false }

/-- A translator state with whitespace-only input, for C4. -/
def blankStateC4 : TranslatorState :=
  { UseTranslator.initialState with inputText := "   " }

/-- A translator state with non-blank input, for C8. -/
def nonBlankStateC8 : TranslatorState :=
  { UseTranslator.initialState with inputText := "гаф" }

/-- A concrete successful response, for C8. -/
def responseC8 : TranslateResponse :=
  { original_text := "гаф", translated_text := "слово"
    words := [{ word := "гаф", translations := ["слово"], part_of_speech := some "сущ"
                confidence := 1, is_unknown := false }]
    direction := Direction.tabRus, llm_used := false }

/-- C1: in the word-detail card the confidence bar is green iff
confidence ≥ 0.8, yellow iff 0.5 ≤ confidence < 0.8, red iff
confidence < 0.5, and the bar width is confidence·100 percent. -/
theorem confidence_bar_bands (w : WordTranslation) :
    (WordCard.barColor w = "bg-green-500" ↔ 8/10 ≤ w.confidence) ∧
    (WordCard.barColor w = "bg-yellow-500" ↔ 5/10 ≤ w.confidence ∧ w.confidence < 8/10) ∧
    (WordCard.barColor w = "bg-red-500" ↔ w.confidence < 5/10) ∧
    WordCard.barWidthPercent w = w.confidence * 100 := by
  have hgy : ("bg-green-500" : String) ≠ "bg-yellow-500" := by decide
  have hgr : ("bg-green-500" : String) ≠ "bg-red-500" := by decide
  have hyg : ("bg-yellow-500" : String) ≠ "bg-green-500" := by decide
  have hyr : ("bg-yellow-500" : String) ≠ "bg-red-500" := by decide
  have hrg : ("bg-red-500" : String) ≠ "bg-green-500" := by decide
  have hry : ("bg-red-500" : String) ≠ "bg-yellow-500" := by decide
  unfold WordCard.barColor WordCard.barWidthPercent
  split_ifs with h1 h2
  · exact ⟨⟨fun _ => h1, fun _ => rfl⟩,
      ⟨fun h => absurd h hgy, fun h => absurd h.2 (not_lt.2 h1)⟩,
      ⟨fun h => absurd h hgr, fun h => by rw [ge_iff_le] at h1; linarith⟩, rfl⟩
  · exact ⟨⟨fun h => absurd h hyg, fun h => absurd h h1⟩,
      ⟨fun _ => ⟨h2, lt_of_not_le h1⟩, fun _ => rfl⟩,
      ⟨fun h => absurd h hyr, fun h => absurd h (not_lt.2 h2)⟩, rfl⟩
  · exact ⟨⟨fun h => absurd h hrg, fun h => absurd h h1⟩,
      ⟨fun h => absurd h hry, fun h => absurd h.1 h2⟩,
      ⟨fun _ => lt_of_not_le h2, fun _ => rfl⟩, rfl⟩

/-- C2 counterexample: a known low-band word (confidence 0.3) and a
known medium-band word (confidence 0.6) receive the same class from
`getWordClass`, so the low and medium bands are not given distinct
styling. -/
theorem getWordClass_medium_low_not_distinct :
    lowKnownWord.is_unknown = false ∧ lowKnownWord.confidence < 5/10 ∧
    midKnownWord.is_unknown = false ∧ 5/10 ≤ midKnownWord.confidence ∧
    midKnownWord.confidence < 8/10 ∧
    TranslatorResult.getWordClass lowKnownWord =
      TranslatorResult.getWordClass midKnownWord := by
  refine ⟨rfl, by norm_num [lowKnownWord], rfl, by norm_num [midKnownWord],
    by norm_num [midKnownWord], ?_⟩
  have hlow : TranslatorResult.getWordClass lowKnownWord =
      "text-yellow-700 bg-yellow-50 cursor-pointer hover:bg-yellow-100" := by
    norm_num [TranslatorResult.getWordClass, lowKnownWord]
  have hmid : TranslatorResult.getWordClass midKnownWord =
      "text-yellow-700 bg-yellow-50 cursor-pointer hover:bg-yellow-100" := by
    norm_num [TranslatorResult.getWordClass, midKnownWord]
  rw [hlow, hmid]

/-- C2 amended: `getWordClass` gives unknown words the red unknown
styling, and splits known words into only two bands: confidence < 0.8
gets the yellow styling (the medium and low bands are not
distinguished) and confidence ≥ 0.8 gets the default high styling. -/
theorem getWordClass_two_known_bands (w : WordTranslation) :
    (w.is_unknown = true →
      TranslatorResult.getWordClass w = "text-red-600 bg-red-50 cursor-help") ∧
    (w.is_unknown = false →
      ((TranslatorResult.getWordClass w =
          "text-yellow-700 bg-yellow-50 cursor-pointer hover:bg-yellow-100") ↔
        w.confidence < 8/10) ∧
      ((TranslatorResult.getWordClass w = "cursor-pointer hover:bg-primary-50") ↔
        8/10 ≤ w.confidence)) := by
  have hyd : ("text-yellow-700 bg-yellow-50 cursor-pointer hover:bg-yellow-100" : String) ≠
      "cursor-pointer hover:bg-primary-50" := by decide
  constructor
  · intro hu
    simp [TranslatorResult.getWordClass, hu]
  · intro hu
    unfold TranslatorResult.getWordClass
    rw [hu]
    simp only [Bool.false_eq_true, if_false]
    split_ifs with h
    · exact ⟨⟨fun _ => h, fun _ => rfl⟩,
        ⟨fun he => absurd he hyd, fun hle => absurd h (not_lt.2 hle)⟩⟩
    · exact ⟨⟨fun he => absurd he (Ne.symm hyd), fun hlt => absurd hlt h⟩,
        ⟨fun _ => le_of_not_lt h, fun _ => rfl⟩⟩

/-- C2 witness: the amended theorem evaluated at an unknown word and at
a medium-band known word. -/
theorem getWordClass_two_known_bands_witness :
    TranslatorResult.getWordClass unknownWordC2 = "text-red-600 bg-red-50 cursor-help" ∧
    ((TranslatorResult.getWordClass midKnownWord =
        "text-yellow-700 bg-yellow-50 cursor-pointer hover:bg-yellow-100") ↔
      midKnownWord.confidence < 8/10) :=
  ⟨(getWordClass_two_known_bands unknownWordC2).1 rfl,
   ((getWordClass_two_known_bands midKnownWord).2 rfl).1⟩

/-- C3: applying `toggleDirection` twice restores the original value of
the `direction` field, for every starting state. -/
theorem toggleDirection_involutive_on_direction (s : TranslatorState) :
    (UseTranslator.toggleDirection (UseTranslator.toggleDirection s)).direction =
      s.direction := by
  rcases s with ⟨it, d, l, e, r, u⟩
  cases d <;> cases r <;> rfl

/-- C4: on input that is empty after trimming, `translate()` sets the
user-facing error message, issues no API call, and leaves `isLoading`
and the previous `result` unchanged; and the translate button is
disabled for such input. -/
theorem translate_blank_input_rejected (s : TranslatorState) (api : ApiOutcome)
    (h : jsTrim s.inputText = "") :
    (UseTranslator.translate s api).1.error = some UseTranslator.blankInputError ∧
    (UseTranslator.translate s api).2 = false ∧
    (UseTranslator.translate s api).1.isLoading = s.isLoading ∧
    (UseTranslator.translate s api).1.result = s.result ∧
    TranslatorInput.translateDisabled s.isLoading s.inputText = true := by
  unfold UseTranslator.translate
  rw [if_pos h]
  refine ⟨rfl, rfl, rfl, rfl, ?_⟩
  simp [TranslatorInput.translateDisabled, h]

/-- C4 witness: the blank-input theorem evaluated at a whitespace-only
state. -/
theorem translate_blank_input_rejected_witness :
    (UseTranslator.translate blankStateC4 (ApiOutcome.failure none none)).1.error =
        some UseTranslator.blankInputError ∧
    (UseTranslator.translate blankStateC4 (ApiOutcome.failure none none)).2 = false ∧
    (UseTranslator.translate blankStateC4 (ApiOutcome.failure none none)).1.isLoading =
        blankStateC4.isLoading ∧
    (UseTranslator.translate blankStateC4 (ApiOutcome.failure none none)).1.result =
        blankStateC4.result ∧
    TranslatorInput.translateDisabled blankStateC4.isLoading blankStateC4.inputText = true :=
  translate_blank_input_rejected blankStateC4 (ApiOutcome.failure none none) (by decide)

/-- C5: the POST body built by the API-client `translate` carries
exactly the fields `text`, `direction` and `use_llm` (the
`TranslateRequestBody` structure has exactly these three fields), the
direction is one of the two enum values, and the omitted-`useLlm`
default is `true`. -/
theorem translate_request_body_shape (text : String) (d : Direction) (u : Bool) :
    (ApiClient.translateBody text d u).text = text ∧
    (ApiClient.translateBody text d u).direction = d ∧
    (ApiClient.translateBody text d u).use_llm = u ∧
    (d = Direction.tabRus ∨ d = Direction.rusTab) ∧
    ApiClient.defaultUseLlm = true := by
  refine ⟨rfl, rfl, rfl, ?_, rfl⟩
  cases d
  · exact Or.inl rfl
  · exact Or.inr rfl

/-- C6: the footer shows the not-found counter iff some word has
`is_unknown = true`, the number shown is the count of such words (also
equal to the `unknownWords` computed's length), and a result with
unknown words still renders in the normal result branch, not the error
branch. -/
theorem unknown_counter_correct (r : TranslateResponse) :
    (TranslatorResult.showUnknownCounter r = true ↔
      ∃ w ∈ r.words, w.is_unknown = true) ∧
    TranslatorResult.unknownCountShown r = r.words.countP (fun w => w.is_unknown) ∧
    TranslatorResult.unknownCountShown r = (UseTranslator.unknownWords (some r)).length ∧
    TranslatorResult.footerShown (some r) = true ∧
    TranslatorResult.renderBranch false none (some r) =
      TranslatorResult.RenderBranch.resultView := by
  refine ⟨?_, ?_, rfl, rfl, rfl⟩
  · simp [TranslatorResult.showUnknownCounter, List.any_eq_true]
  · simp [TranslatorResult.unknownCountShown, List.countP_eq_length_filter]

/-- C7: the AI-used badge is shown iff a result exists with
`llm_used = true`; with no loading and no error, the branch rendered
for any non-null result (whatever its `llm_used`) is the normal result
view, never the error box. -/
theorem ai_badge_iff_llm_used (result : Option TranslateResponse) :
    (AppView.showAiBadge result = true ↔
      ∃ r, result = some r ∧ r.llm_used = true) ∧
    TranslatorResult.renderBranch false none result =
      (if result.isSome then TranslatorResult.RenderBranch.resultView
       else TranslatorResult.RenderBranch.empty) := by
  cases result with
  | none => exact ⟨by simp [AppView.showAiBadge], rfl⟩
  | some r => exact ⟨by simp [AppView.showAiBadge], rfl⟩

/-- C8: after `translate()` completes on non-blank input, `isLoading`
is false and at most one of `result`/`error` is non-null: on success
`result` holds the response with `error` null, on failure `error`
holds a message and `result` is null. -/
theorem translate_completed_postcondition (s : TranslatorState) (api : ApiOutcome)
    (h : jsTrim s.inputText ≠ "") :
    (UseTranslator.translate s api).1.isLoading = false ∧
    ((UseTranslator.translate s api).1.result = none ∨
      (UseTranslator.translate s api).1.error = none) ∧
    (match api with
      | ApiOutcome.success r =>
          (UseTranslator.translate s api).1.result = some r ∧
          (UseTranslator.translate s api).1.error = none
      | ApiOutcome.failure detail message =>
          (UseTranslator.translate s api).1.error =
            some (UseTranslator.failureErrorMessage detail message) ∧
          (UseTranslator.translate s api).1.result = none) := by
  cases api with
  | success r =>
    unfold UseTranslator.translate
    rw [if_neg h]
    exact ⟨rfl, Or.inr rfl, rfl, rfl⟩
  | failure detail message =>
    unfold UseTranslator.translate
    rw [if_neg h]
    exact ⟨rfl, Or.inl rfl, rfl, rfl⟩

/-- C8 witness: the postcondition evaluated at a concrete non-blank
state and a successful API outcome. -/
theorem translate_completed_postcondition_witness :
    (UseTranslator.translate nonBlankStateC8 (ApiOutcome.success responseC8)).1.isLoading =
        false ∧
    ((UseTranslator.translate nonBlankStateC8 (ApiOutcome.success responseC8)).1.result =
        none ∨
      (UseTranslator.translate nonBlankStateC8 (ApiOutcome.success responseC8)).1.error =
        none) ∧
    ((UseTranslator.translate nonBlankStateC8 (ApiOutcome.success responseC8)).1.result =
        some responseC8 ∧
      (UseTranslator.translate nonBlankStateC8 (ApiOutcome.success responseC8)).1.error =
        none) :=
  translate_completed_postcondition nonBlankStateC8 (ApiOutcome.success responseC8)
    (by decide)

/-- C9: `selectWord` ignores unknown words and stores known ones,
`closeWordCard` resets the selection, and both preserve the invariant
that the selected word is null or known (`selectedWordOk`). -/
theorem selectWord_preserves_known_invariant (sel : Option WordTranslation)
    (w : WordTranslation) :
    (w.is_unknown = true → TranslatorResult.selectWord sel w = sel) ∧
    (w.is_unknown = false → TranslatorResult.selectWord sel w = some w) ∧
    TranslatorResult.closeWordCard = (none : Option WordTranslation) ∧
    (TranslatorResult.selectedWordOk sel = true →
      TranslatorResult.selectedWordOk (TranslatorResult.selectWord sel w) = true) ∧
    TranslatorResult.selectedWordOk TranslatorResult.closeWordCard = true := by
  refine ⟨fun hu => ?_, fun hu => ?_, rfl, fun hsel => ?_, rfl⟩
  · simp [TranslatorResult.selectWord, hu]
  · simp [TranslatorResult.selectWord, hu]
  · cases hu : w.is_unknown with
    | true => simpa [TranslatorResult.selectWord, hu] using hsel
    | false => simp [TranslatorResult.selectWord, TranslatorResult.selectedWordOk, hu]

/-- C9 witness: the invariant theorem evaluated at an empty selection
with a concrete unknown word and a concrete known word. -/
theorem selectWord_preserves_known_invariant_witness :
    TranslatorResult.selectWord none unknownWordC9 = none ∧
    TranslatorResult.selectWord none knownWordC9 = some knownWordC9 ∧
    TranslatorResult.selectedWordOk
      (TranslatorResult.selectWord (some knownWordC9) unknownWordC9) = true :=
  ⟨(selectWord_preserves_known_invariant none unknownWordC9).1 rfl,
   (selectWord_preserves_known_invariant none knownWordC9).2.1 rfl,
   (selectWord_preserves_known_invariant (some knownWordC9) unknownWordC9).2.2.2.1 rfl⟩

/-- C10: `clear()` resets exactly `inputText`, `result` and `error`,
leaving `direction`, `useLlm` and `isLoading` untouched. -/
theorem clear_resets_exactly_io_fields (s : TranslatorState) :
    UseTranslator.clear s = { s with inputText := "", result := none, error := none } ∧
    (UseTranslator.clear s).inputText = "" ∧
    (UseTranslator.clear s).result = none ∧
    (UseTranslator.clear s).error = none ∧
    (UseTranslator.clear s).direction = s.direction ∧
    (UseTranslator.clear s).useLlm = s.useLlm ∧
    (UseTranslator.clear s).isLoading = s.isLoading :=
  ⟨rfl, rfl, rfl, rfl, rfl, rfl, rfl⟩
